import Mathlib

/-!
Verification of the publication-visibility and ownership-gating core of the
blogicum blog application (`blogicum/blog/views.py`), as a shallow embedding:
the record store is a quadruple of lists, each view handler is a function from
the store, URL parameters and the requesting viewer to an outcome (and, for
mutating handlers, an updated store).

The Django model classes (`models.py`) and form classes (`forms.py`) are not
part of the sources; their field lists are modelled from the specification's
data-model section, which does not affect any handler logic, all of which is
taken directly from `views.py`.
-/

namespace Blogicum

/-- A user record. `is_staff` is the Django staff flag consulted by
`PostDeleteView.dispatch`; `username` is the unique profile key used by
`ProfileListView`. -/
structure User where
  id : Nat
  username : String
  is_staff : Bool
deriving DecidableEq, Repr

/-- The identity on whose behalf a request runs: `request.user` is either an
authenticated `User` or Django's anonymous user, which compares unequal to
every real user and has `is_staff = False`. -/
inductive Viewer where
  | anonymous
  | auth (user : User)
deriving DecidableEq, Repr

/-- `request.user.is_staff`: the anonymous user is never staff. -/
def Viewer.isStaff : Viewer → Bool
  | .anonymous => false
  | .auth u => u.is_staff

/-- Modelled from the spec: a Category has a title/description (irrelevant to
policy), a unique slug and a published flag (`models.py` is not among the
sources; §3 of the spec lists these fields). -/
structure Category where
  id : Nat
  slug : String
  is_published : Bool
deriving DecidableEq, Repr

/-- Modelled from the spec: a Post has title, body text, a publication
timestamp `pub_date`, a published flag, an owning author, an optional
location reference and a category (`models.py` is not among the sources;
§3 of the spec lists these fields). Timestamps are integers ordered by ≤. -/
structure Post where
  id : Nat
  author : User
  category : Category
  location : Option Nat
  is_published : Bool
  pub_date : Int
  title : String
  text : String
deriving DecidableEq, Repr

/-- Modelled from the spec: a Comment has body text, a creation timestamp, an
author and a parent Post reference (§3 of the spec). -/
structure Comment where
  id : Nat
  author : User
  post_id : Nat
  created_at : Int
  text : String
deriving DecidableEq, Repr

/-- The record store consumed by the handlers. -/
structure Store where
  users : List User
  categories : List Category
  posts : List Post
  comments : List Comment
deriving DecidableEq, Repr

/-- `Count('comments')`: the number of comments whose parent is `p`. -/
def commentCount (comments : List Comment) (p : Post) : Nat :=
  (comments.filter (fun c => c.post_id == p.id)).length

/-- A post as it appears in an assembled feed. `comment_count` is `some n`
when the queryset carried an `annotate(comment_count=Count('comments'))`
clause and `none` when it did not (the attribute is absent on the fetched
instances). -/
structure FeedItem where
  post : Post
  comment_count : Option Nat
deriving DecidableEq, Repr

/-- The filter body of `get_published_posts_queryset`:
`is_published=True, pub_date__lte=timezone.now(), category__is_published=True`. -/
def publishedFilter (now : Int) (p : Post) : Bool :=
  p.is_published && decide (p.pub_date ≤ now) && p.category.is_published

/-- Insert a feed item into a list sorted by descending `pub_date`. -/
def insertFeedDesc (x : FeedItem) : List FeedItem → List FeedItem
  | [] => [x]
  | y :: ys =>
    if y.post.pub_date ≤ x.post.pub_date then x :: y :: ys
    else y :: insertFeedDesc x ys

/-- Modelled from the spec for the ordering key: `order_by("-pub_date")` in the
profile and category views is explicit in `views.py`; the global feed orders by
`Post._meta.ordering`, which lives in the absent `models.py` and is given by
§4.2 of the spec as newest publication timestamp first. -/
def sortByPubDateDesc (l : List FeedItem) : List FeedItem :=
  l.foldr insertFeedDesc []

/-- `get_published_posts_queryset()` (views.py lines 33–49): annotate each post
with its comment count, keep the posts passing `publishedFilter`, order newest
first. -/
def get_published_posts_queryset (s : Store) (now : Int) : List FeedItem :=
  sortByPubDateDesc
    ((s.posts.filter (publishedFilter now)).map
      (fun p => { post := p, comment_count := some (commentCount s.comments p) }))

/-- Outcome of a detail view: the object, or `Http404`. -/
inductive DetailOutcome where
  | ok (p : Post)
  | notFound
deriving DecidableEq, Repr

/-- `PostDetailView.get_object` (views.py lines 148–154): look the post up by
primary key (`Http404` when absent, the behaviour of the base `get_object`),
then, when the viewer is not the author, require the full publication
conjunction, else return the post unconditionally. -/
def PostDetailView_get_object (s : Store) (post_id : Nat) (viewer : Viewer)
    (now : Int) : DetailOutcome :=
  match s.posts.find? (fun p => p.id == post_id) with
  | none => .notFound
  | some obj =>
    if viewer ≠ Viewer.auth obj.author then
      if ¬(obj.is_published = true ∧ obj.pub_date ≤ now ∧
            obj.category.is_published = true) then
        .notFound
      else .ok obj
    else .ok obj

/-- `ProfileListView.get_queryset` (views.py lines 75–92): `get_object_or_404`
on the username, then all of the profile owner's posts when the viewer is the
owner, else only the owner's posts passing the publication conjunction; both
branches are annotated with `comment_count` and ordered by `-pub_date`.
`none` is the `Http404` outcome. -/
def ProfileListView_get_queryset (s : Store) (username : String)
    (viewer : Viewer) (now : Int) : Option (List FeedItem) :=
  match s.users.find? (fun u => u.username == username) with
  | none => none
  | some user_obj =>
    some (sortByPubDateDesc
      ((if viewer = Viewer.auth user_obj then
          s.posts.filter (fun p => p.author == user_obj)
        else
          s.posts.filter (fun p =>
            p.author == user_obj && p.is_published &&
            decide (p.pub_date ≤ now) && p.category.is_published)).map
        (fun p => { post := p, comment_count := some (commentCount s.comments p) })))

/-- `CategoryListView.get_queryset` (views.py lines 114–123):
`get_object_or_404(Category, slug=cat_slug, is_published=True)` — `Http404`
(`none`) unless a category with the slug exists and is itself published — then
the posts of that category passing the post-level publication conditions,
ordered by `-pub_date`. No `comment_count` annotation appears in this
queryset, hence `comment_count := none` on its items. The viewer is not an
input of this handler. -/
def CategoryListView_get_queryset (s : Store) (category_slug : String)
    (now : Int) : Option (List FeedItem) :=
  match s.categories.find? (fun c => c.slug == category_slug && c.is_published) with
  | none => none
  | some category =>
    some (sortByPubDateDesc
      ((s.posts.filter (fun p =>
        p.category == category && p.is_published && decide (p.pub_date ≤ now))).map
        (fun p => { post := p, comment_count := none })))

/-- Outcome of a mutating handler: a redirect to the login page
(`LoginRequiredMixin`), a redirect to a post's detail page, a redirect to a
profile page, or `Http404`. A mutating request always ends in one of these. -/
inductive Outcome where
  | redirectLogin
  | redirectPostDetail (post_id : Nat)
  | redirectProfile (username : String)
  | notFound
deriving DecidableEq, Repr

/-- Modelled from the spec: the content fields editable through `PostForm`
(`forms.py` is not among the sources). §3 and §4.4 of the spec make the author
a permanent owner never among the editable fields; the remaining Post fields
are its content. -/
structure PostFormData where
  title : String
  text : String
  pub_date : Int
  category : Category
  location : Option Nat
deriving DecidableEq, Repr

/-- Apply a `PostForm` to a post: overwrite the content fields, keep primary
key and author. -/
def applyPostForm (f : PostFormData) (p : Post) : Post :=
  { p with title := f.title, text := f.text, pub_date := f.pub_date,
           category := f.category, location := f.location }

/-- Modelled from the spec: `CommentForm` edits the comment's body text
(`forms.py` is not among the sources; §3 of the spec gives a Comment's content
as its body text, and `CommentCreateView.form_valid` sets `author` and `post`
itself, so the form carries neither). -/
def applyCommentForm (newText : String) (c : Comment) : Comment :=
  { c with text := newText }

/-- `PostCreateView` (views.py lines 163–184): `LoginRequiredMixin` turns an
anonymous caller away to the login page; `form_valid` takes the unsaved post
built from the form — including whatever author value the caller managed to
put on it — overwrites `post.author` with `request.user`, saves, and redirects
to the creating viewer's own profile. -/
def PostCreateView_run (s : Store) (draft : Post) (viewer : Viewer) :
    Store × Outcome :=
  match viewer with
  | .anonymous => (s, .redirectLogin)
  | .auth u =>
    ({ s with posts := s.posts ++ [{ draft with author := u }] },
     .redirectProfile u.username)

/-- `CommentCreateView` (views.py lines 240–261): `LoginRequiredMixin`, then
`form_valid` does `get_object_or_404(Post, pk=post_id)` — existence is the
only check on the parent post, no visibility condition — forces
`form.instance.author = request.user` and `form.instance.post = post`, saves,
and redirects to the parent post's detail page. -/
def CommentCreateView_run (s : Store) (post_id : Nat) (draft : Comment)
    (viewer : Viewer) : Store × Outcome :=
  match viewer with
  | .anonymous => (s, .redirectLogin)
  | .auth u =>
    match s.posts.find? (fun p => p.id == post_id) with
    | none => (s, .notFound)
    | some post =>
      ({ s with comments :=
          s.comments ++ [{ draft with author := u, post_id := post.id }] },
       .redirectPostDetail post_id)

/-- `PostUpdateView` (views.py lines 187–212): its own `dispatch` runs before
`LoginRequiredMixin` in the method resolution order, fetches the post by pk (`Http404`
when absent) and redirects every non-author — the anonymous user included — to
the post's detail page; otherwise the form is saved and the handler redirects
to the edited post's own detail page (`get_success_url`). -/
def PostUpdateView_run (s : Store) (post_id : Nat) (viewer : Viewer)
    (f : PostFormData) : Store × Outcome :=
  match s.posts.find? (fun p => p.id == post_id) with
  | none => (s, .notFound)
  | some post =>
    if viewer ≠ Viewer.auth post.author then
      (s, .redirectPostDetail post.id)
    else
      ({ s with posts :=
          s.posts.map (fun p => if p.id == post_id then applyPostForm f p else p) },
       .redirectPostDetail post.id)

/-- `PostDeleteView` (views.py lines 215–237): its own `dispatch` fetches the
post by pk (`Http404` when absent) and redirects to the post's detail page
unless the viewer is the author or staff; on success the post is deleted and
the handler redirects to `request.user`'s — the deleting viewer's own —
profile (`get_success_url`). The anonymous viewer is never staff, so it always
takes the redirect branch. -/
def PostDeleteView_run (s : Store) (post_id : Nat) (viewer : Viewer) :
    Store × Outcome :=
  match s.posts.find? (fun p => p.id == post_id) with
  | none => (s, .notFound)
  | some post =>
    if viewer ≠ Viewer.auth post.author ∧ viewer.isStaff = false then
      (s, .redirectPostDetail post.id)
    else
      match viewer with
      | .anonymous => (s, .redirectLogin)
      | .auth u =>
        ({ s with posts := s.posts.filter (fun p => p.id != post_id) },
         .redirectProfile u.username)

/-- `CommentUpdateView` (views.py lines 264–287): `LoginRequiredMixin` first
(it defines no `dispatch` of its own), then `get_object` fetches the comment by
pk (`Http404` when absent) and raises `Http404` — not a redirect — when the
viewer is not the comment's author; on success the form is saved and the
handler redirects to the parent post's detail page. -/
def CommentUpdateView_run (s : Store) (comment_id : Nat) (viewer : Viewer)
    (newText : String) : Store × Outcome :=
  match viewer with
  | .anonymous => (s, .redirectLogin)
  | .auth u =>
    match s.comments.find? (fun c => c.id == comment_id) with
    | none => (s, .notFound)
    | some comment =>
      if comment.author ≠ u then (s, .notFound)
      else
        ({ s with comments :=
            s.comments.map (fun c =>
              if c.id == comment_id then applyCommentForm newText c else c) },
         .redirectPostDetail comment.post_id)

/-- `CommentDeleteView` (views.py lines 290–312): its own `dispatch` fetches
the comment by pk (`Http404` when absent) and redirects every non-author to
the parent post's detail page; on success the comment is deleted and the
handler redirects to the same parent post's detail page. -/
def CommentDeleteView_run (s : Store) (comment_id : Nat) (viewer : Viewer) :
    Store × Outcome :=
  match s.comments.find? (fun c => c.id == comment_id) with
  | none => (s, .notFound)
  | some comment =>
    if viewer ≠ Viewer.auth comment.author then
      (s, .redirectPostDetail comment.post_id)
    else
      match viewer with
      | .anonymous => (s, .redirectLogin)
      | .auth _ =>
        ({ s with comments := s.comments.filter (fun c => c.id != comment_id) },
         .redirectPostDetail comment.post_id)

/-- `POSTS_LIMIT` (views.py line 17). -/
def POSTS_LIMIT : Nat := 10

/-- `Paginator.num_pages` for the default `orphans=0, allow_empty_first_page
=True`: the ceiling of `max 1 count / per_page` (an empty object list still
has one, empty, page). -/
def num_pages (count per_page : Nat) : Nat :=
  max 1 ((count + per_page - 1) / per_page)

/-- The items of 1-based page `page` under page size `per_page`. -/
def pageItems (l : List α) (per_page page : Nat) : List α :=
  (l.drop ((page - 1) * per_page)).take per_page

/-- The caller-supplied page parameter as the pagination code classifies it:
absent, the literal string `"last"`, a string parsing as an integer, or any
other non-integer string. -/
inductive PageParam where
  | missing
  | lastLit
  | intVal (n : Int)
  | nonInt
deriving DecidableEq, Repr

/-- Embeds `django.core.paginator.Paginator.get_page`, used by `index`
(views.py lines 26–29): `validate_number` classifies the parameter —
a missing or non-integer value (the literal `"last"` included) raises
`PageNotAnInteger`, caught to page 1; an integer below 1 or above `num_pages`
raises `EmptyPage`, caught to the LAST page `num_pages`. Returns the page's
items and its 1-based number. -/
def Paginator_get_page (l : List α) (per_page : Nat) (param : PageParam) :
    List α × Nat :=
  match param with
  | .intVal n =>
    if n < 1 then
      (pageItems l per_page (num_pages l.length per_page),
       num_pages l.length per_page)
    else if (num_pages l.length per_page : Int) < n then
      (pageItems l per_page (num_pages l.length per_page),
       num_pages l.length per_page)
    else (pageItems l per_page n.toNat, n.toNat)
  | _ => (pageItems l per_page 1, 1)

/-- Embeds `django.views.generic.list.MultipleObjectMixin.paginate_queryset`,
the pagination behind `paginate_by` in `ProfileListView` (via `BlogMixin`) and
`CategoryListView`: a missing page parameter defaults to 1, the literal
`"last"` means the last page, any other non-integer raises `Http404`, and an
integer outside `1..num_pages` raises `Http404` (`InvalidPage`) rather than
clamping. `none` is the `Http404` outcome. -/
def ListView_paginate (l : List α) (per_page : Nat) (param : PageParam) :
    Option (List α × Nat) :=
  match (match param with
         | .missing => some (1 : Int)
         | .intVal n => some n
         | .lastLit => some (num_pages l.length per_page : Int)
         | .nonInt => none) with
  | none => none
  | some n =>
    if n < 1 ∨ (num_pages l.length per_page : Int) < n then none
    else some (pageItems l per_page n.toNat, n.toNat)

/-- `index` (views.py lines 20–30): the global feed paginated by
`Paginator(queryset, POSTS_LIMIT).get_page(request.GET.get("page"))`. -/
def index_view (s : Store) (now : Int) (param : PageParam) :
    List FeedItem × Nat :=
  Paginator_get_page (get_published_posts_queryset s now) POSTS_LIMIT param

/-- The profile feed page: `ProfileListView` with `paginate_by = POSTS_LIMIT`
from `BlogMixin` (views.py lines 52–58, 61–92). -/
def ProfileListView_page (s : Store) (username : String) (viewer : Viewer)
    (now : Int) (param : PageParam) : Option (List FeedItem × Nat) :=
  match ProfileListView_get_queryset s username viewer now with
  | none => none
  | some l => ListView_paginate l POSTS_LIMIT param

/-- The category feed page: `CategoryListView` with
`paginate_by = POSTS_LIMIT` (views.py lines 102–123). -/
def CategoryListView_page (s : Store) (category_slug : String) (now : Int)
    (param : PageParam) : Option (List FeedItem × Nat) :=
  match CategoryListView_get_queryset s category_slug now with
  | none => none
  | some l => ListView_paginate l POSTS_LIMIT param

/-- Membership in `insertFeedDesc` is membership in the inserted element or the
original list. -/
theorem mem_insertFeedDesc (x a : FeedItem) (l : List FeedItem) :
    a ∈ insertFeedDesc x l ↔ a = x ∨ a ∈ l := by
  induction l with
  | nil => simp [insertFeedDesc]
  | cons y ys ih =>
    simp only [insertFeedDesc]
    split
    · simp [List.mem_cons]
    · simp only [List.mem_cons, ih]
      tauto

/-- Sorting a feed does not change its members. -/
theorem mem_sortByPubDateDesc (a : FeedItem) (l : List FeedItem) :
    a ∈ sortByPubDateDesc l ↔ a ∈ l := by
  induction l with
  | nil => simp [sortByPubDateDesc]
  | cons y ys ih =>
    simp only [sortByPubDateDesc, List.foldr] at *
    rw [mem_insertFeedDesc, ih, List.mem_cons]

/-! ## Concrete fixtures used by witnesses and counterexamples -/

/-- A regular user. -/
def userA : User := { id := 1, username := "alice", is_staff := false }

/-- A second regular user. -/
def userB : User := { id := 2, username := "bob", is_staff := false }

/-- A staff user. -/
def userC : User := { id := 3, username := "carol", is_staff := true }

/-- A published category. -/
def catPub : Category := { id := 1, slug := "tech", is_published := true }

/-- An unpublished category. -/
def catHidden : Category := { id := 2, slug := "secret", is_published := false }

/-- A fully published post by `userA` in the published category. -/
def post1 : Post :=
  { id := 1, author := userA, category := catPub, location := none,
    is_published := true, pub_date := 50, title := "p1", text := "b1" }

/-- An unpublished post by `userA` — invisible to everybody but its author. -/
def post2 : Post :=
  { id := 2, author := userA, category := catPub, location := none,
    is_published := false, pub_date := 40, title := "p2", text := "b2" }

/-- A comment by `userB` on `post1`. -/
def comment1 : Comment :=
  { id := 1, author := userB, post_id := 1, created_at := 60, text := "c1" }

/-- An unsaved comment carrying a caller-supplied author and parent. -/
def draftComment : Comment :=
  { id := 99, author := userB, post_id := 77, created_at := 5, text := "spoof" }

/-- An unsaved post carrying a caller-supplied author value (`userB`). -/
def draftPost : Post :=
  { id := 99, author := userB, category := catPub, location := none,
    is_published := true, pub_date := 10, title := "d", text := "d" }

/-- A concrete form payload. -/
def formData : PostFormData :=
  { title := "t", text := "x", pub_date := 10, category := catPub, location := none }

/-- The store the witnesses run against. -/
def exStore : Store :=
  { users := [userA, userB, userC], categories := [catPub, catHidden],
    posts := [post1, post2], comments := [comment1] }

/-- Eleven published posts — two pages at page size 10. -/
def manyPosts : List Post :=
  (List.range 11).map (fun i =>
    { id := i + 1, author := userA, category := catPub, location := none,
      is_published := true, pub_date := (i : Int), title := "p", text := "b" })

/-- A store whose global feed spans two pages. -/
def bigStore : Store :=
  { users := [userA], categories := [catPub], posts := manyPosts, comments := [] }

/-! ## Claims -/

/-- C1: for a viewer who is not the post's author, the detail page shows the
post exactly when the post's published flag is set, its publication timestamp
is not later than `now`, and its category's published flag is set — and
membership in the global feed is governed by exactly the same conjunction. -/
theorem C1_nonauthor_visibility (s : Store) (post_id : Nat) (viewer : Viewer)
    (now : Int) (obj : Post)
    (hfind : s.posts.find? (fun p => p.id == post_id) = some obj)
    (hv : viewer ≠ Viewer.auth obj.author) :
    (PostDetailView_get_object s post_id viewer now = .ok obj ↔
      (obj.is_published = true ∧ obj.pub_date ≤ now ∧
        obj.category.is_published = true)) ∧
    (PostDetailView_get_object s post_id viewer now = .notFound ↔
      ¬(obj.is_published = true ∧ obj.pub_date ≤ now ∧
        obj.category.is_published = true)) ∧
    (∀ p : Post, (∃ item ∈ get_published_posts_queryset s now, item.post = p) ↔
      (p ∈ s.posts ∧ (p.is_published = true ∧ p.pub_date ≤ now ∧
        p.category.is_published = true))) := by
  refine ⟨?_, ?_, ?_⟩
  · simp only [PostDetailView_get_object, hfind, if_pos hv]
    by_cases hc : obj.is_published = true ∧ obj.pub_date ≤ now ∧
        obj.category.is_published = true
    · rw [if_neg (not_not_intro hc)]
      simp [hc]
    · rw [if_pos hc]
      simp [hc]
  · simp only [PostDetailView_get_object, hfind, if_pos hv]
    by_cases hc : obj.is_published = true ∧ obj.pub_date ≤ now ∧
        obj.category.is_published = true
    · rw [if_neg (not_not_intro hc)]
      simp [hc]
    · rw [if_pos hc]
      simp [hc]
  · intro p
    simp only [get_published_posts_queryset]
    constructor
    · rintro ⟨item, hmem, hpost⟩
      rw [mem_sortByPubDateDesc, List.mem_map] at hmem
      obtain ⟨q, hq, rfl⟩ := hmem
      have hqp : q = p := hpost
      subst hqp
      rw [List.mem_filter] at hq
      refine ⟨hq.1, ?_⟩
      have := hq.2
      simp only [publishedFilter, Bool.and_eq_true, decide_eq_true_eq] at this
      exact ⟨this.1.1, this.1.2, this.2⟩
    · rintro ⟨hp, h1, h2, h3⟩
      refine ⟨{ post := p, comment_count := some (commentCount s.comments p) },
        ?_, rfl⟩
      rw [mem_sortByPubDateDesc, List.mem_map]
      exact ⟨p, List.mem_filter.mpr
        ⟨hp, by simp [publishedFilter, h1, h2, h3]⟩, rfl⟩

/-- Witness for C1: `userB` is not the author of the unpublished `post2`, and
the detail page answers `Http404`. -/
theorem C1_nonauthor_visibility_witness :
    PostDetailView_get_object exStore 2 (Viewer.auth userB) 100 =
      DetailOutcome.notFound :=
  ((C1_nonauthor_visibility exStore 2 (Viewer.auth userB) 100 post2
    (by decide) (by decide)).2.1).mpr (by decide)

/-- C2: the author bypasses the visibility conjunction — the detail page
always shows them their own post, whatever the flags and timestamps, and
their own profile feed contains every one of their posts. -/
theorem C2_author_bypass (s : Store) (post_id : Nat) (now : Int) (obj : Post)
    (u : User)
    (hfind : s.posts.find? (fun p => p.id == post_id) = some obj)
    (hu : s.users.find? (fun v => v.username == u.username) = some u) :
    PostDetailView_get_object s post_id (Viewer.auth obj.author) now =
      .ok obj ∧
    ∃ l, ProfileListView_get_queryset s u.username (Viewer.auth u) now =
        some l ∧
      ∀ p ∈ s.posts, p.author = u → ∃ item ∈ l, item.post = p := by
  constructor
  · simp [PostDetailView_get_object, hfind]
  · simp only [ProfileListView_get_queryset, hu, if_pos rfl]
    refine ⟨_, rfl, ?_⟩
    intro p hp hauthor
    refine ⟨{ post := p, comment_count := some (commentCount s.comments p) },
      ?_, rfl⟩
    rw [mem_sortByPubDateDesc, List.mem_map]
    exact ⟨p, List.mem_filter.mpr ⟨hp, by simp [hauthor]⟩, rfl⟩

/-- Witness for C2: `userA` sees their own unpublished `post2` on its detail
page. -/
theorem C2_author_bypass_witness :
    PostDetailView_get_object exStore 2 (Viewer.auth post2.author) 100 =
      DetailOutcome.ok post2 :=
  (C2_author_bypass exStore 2 100 post2 userA (by decide) (by decide)).1

/-- C3: creating a Post or a Comment stores the current authenticated viewer
as the record's author, whatever author value the caller put on the unsaved
draft, and two create requests differing only in that caller-supplied author
value produce identical results. -/
theorem C3_author_forced (s : Store) (u a1 a2 : User) (draft : Post)
    (cdraft : Comment) (post_id : Nat) :
    ((PostCreateView_run s draft (Viewer.auth u)).1.posts =
      s.posts ++ [{ draft with author := u }]) ∧
    (PostCreateView_run s { draft with author := a1 } (Viewer.auth u) =
      PostCreateView_run s { draft with author := a2 } (Viewer.auth u)) ∧
    (∀ post, s.posts.find? (fun p => p.id == post_id) = some post →
      (CommentCreateView_run s post_id cdraft (Viewer.auth u)).1.comments =
        s.comments ++ [{ cdraft with author := u, post_id := post.id }]) ∧
    (CommentCreateView_run s post_id { cdraft with author := a1 }
        (Viewer.auth u) =
      CommentCreateView_run s post_id { cdraft with author := a2 }
        (Viewer.auth u)) := by
  refine ⟨rfl, rfl, ?_, ?_⟩
  · intro post hfind
    simp [CommentCreateView_run, hfind]
  · simp only [CommentCreateView_run]

/-- Witness for C3: commenting on `post1` with a draft naming a wrong author
and a wrong parent stores `userB` as the author and `post1` as the parent. -/
theorem C3_author_forced_witness :
    (CommentCreateView_run exStore 1 draftComment (Viewer.auth userB)).1.comments =
      exStore.comments ++ [{ draftComment with author := userB, post_id := post1.id }] :=
  (C3_author_forced exStore userB userA userC draftPost draftComment 1).2.2.1
    post1 (by decide)

/-- C4: when the ownership check fails, a Post update and a Post delete are
refused by a redirect to the post's detail page, a Comment update is refused
by `Http404`; in each denial the returned store is the input store — nothing
was mutated. -/
theorem C4_denial_unchanged (s : Store) (post_id comment_id : Nat)
    (viewer : Viewer) (u : User) (f : PostFormData) (newText : String)
    (post : Post) (comment : Comment)
    (hp : s.posts.find? (fun p => p.id == post_id) = some post)
    (hc : s.comments.find? (fun c => c.id == comment_id) = some comment) :
    (viewer ≠ Viewer.auth post.author →
      PostUpdateView_run s post_id viewer f =
        (s, .redirectPostDetail post.id)) ∧
    (viewer ≠ Viewer.auth post.author → viewer.isStaff = false →
      PostDeleteView_run s post_id viewer =
        (s, .redirectPostDetail post.id)) ∧
    (comment.author ≠ u →
      CommentUpdateView_run s comment_id (Viewer.auth u) newText =
        (s, .notFound)) := by
  refine ⟨?_, ?_, ?_⟩
  · intro hv
    simp [PostUpdateView_run, hp, hv]
  · intro hv hstaff
    simp [PostDeleteView_run, hp, hv, hstaff]
  · intro hv
    simp [CommentUpdateView_run, hc, hv]

/-- Witness for C4: `userB` cannot edit `post1` (redirected to the detail
page, store untouched). -/
theorem C4_denial_unchanged_witness :
    PostUpdateView_run exStore 1 (Viewer.auth userB) formData =
      (exStore, Outcome.redirectPostDetail 1) :=
  (C4_denial_unchanged exStore 1 1 (Viewer.auth userB) userC formData "z"
    post1 comment1 (by decide) (by decide)).1 (by decide)

/-- C5: a category feed answers `Http404` when no published category carries
the requested slug — whether the slug is absent altogether or its category is
unpublished; the handler does not even take the viewer as an input, so no
viewer can bypass it. A profile feed answers `Http404` for an unknown
username for every viewer. -/
theorem C5_feed_not_found (s : Store) (slug username : String)
    (viewer : Viewer) (now : Int) (param : PageParam) :
    ((∀ c ∈ s.categories, ¬(c.slug = slug ∧ c.is_published = true)) →
      CategoryListView_get_queryset s slug now = none ∧
      CategoryListView_page s slug now param = none) ∧
    ((∀ u ∈ s.users, u.username ≠ username) →
      ProfileListView_get_queryset s username viewer now = none ∧
      ProfileListView_page s username viewer now param = none) := by
  constructor
  · intro hcat
    have hfind : s.categories.find?
        (fun c => c.slug == slug && c.is_published) = none := by
      rw [List.find?_eq_none]
      intro c hcmem
      have := hcat c hcmem
      simp only [Bool.and_eq_true, beq_iff_eq]
      tauto
    refine ⟨?_, ?_⟩
    · simp [CategoryListView_get_queryset, hfind]
    · simp [CategoryListView_page, CategoryListView_get_queryset, hfind]
  · intro husr
    have hfind : s.users.find? (fun v => v.username == username) = none := by
      rw [List.find?_eq_none]
      intro v hvmem
      simpa using husr v hvmem
    refine ⟨?_, ?_⟩
    · simp [ProfileListView_get_queryset, hfind]
    · simp [ProfileListView_page, ProfileListView_get_queryset, hfind]

/-- Witness for C5: the category `"secret"` exists but is unpublished, and the
category feed answers `Http404`. -/
theorem C5_feed_not_found_witness :
    CategoryListView_get_queryset exStore "secret" 100 = none :=
  ((C5_feed_not_found exStore "secret" "nobody" Viewer.anonymous 100
    PageParam.missing).1 (by decide)).1

/-- C6: an authenticated viewer's Post delete goes through — removing the
record and redirecting to the viewer's profile — exactly when the viewer is
the author or staff, and is refused with the store untouched otherwise;
a Comment delete goes through exactly when the viewer is the comment's
author, with no staff override. The final conjuncts pin the looked-up records
inside the store, so the success branch genuinely removes a present record
while the denial branch changes nothing. -/
theorem C6_delete_permission (s : Store) (post_id comment_id : Nat) (u : User)
    (post : Post) (comment : Comment)
    (hp : s.posts.find? (fun p => p.id == post_id) = some post)
    (hc : s.comments.find? (fun c => c.id == comment_id) = some comment) :
    ((u = post.author ∨ u.is_staff = true) →
      PostDeleteView_run s post_id (Viewer.auth u) =
        ({ s with posts := s.posts.filter (fun p => p.id != post_id) },
         .redirectProfile u.username)) ∧
    (¬(u = post.author ∨ u.is_staff = true) →
      PostDeleteView_run s post_id (Viewer.auth u) =
        (s, .redirectPostDetail post.id)) ∧
    (u = comment.author →
      CommentDeleteView_run s comment_id (Viewer.auth u) =
        ({ s with comments := s.comments.filter (fun c => c.id != comment_id) },
         .redirectPostDetail comment.post_id)) ∧
    (u ≠ comment.author →
      CommentDeleteView_run s comment_id (Viewer.auth u) =
        (s, .redirectPostDetail comment.post_id)) ∧
    (post ∈ s.posts ∧ post.id = post_id ∧
      comment ∈ s.comments ∧ comment.id = comment_id) := by
  refine ⟨?_, ?_, ?_, ?_, ?_⟩
  · rintro (h | h)
    · subst h
      simp [PostDeleteView_run, hp]
    · simp [PostDeleteView_run, hp, Viewer.isStaff, h]
  · intro h
    have h1 : u ≠ post.author := fun he => h (Or.inl he)
    have h2 : u.is_staff = false := by
      cases hstaff : u.is_staff
      · rfl
      · exact absurd (Or.inr hstaff) h
    simp [PostDeleteView_run, hp, Viewer.isStaff, h1, h2]
  · intro h
    subst h
    simp [CommentDeleteView_run, hc]
  · intro h
    simp only [CommentDeleteView_run, hc]
    rw [if_pos (by simpa using h)]
  · exact ⟨List.mem_of_find?_eq_some hp, by simpa using List.find?_some hp,
      List.mem_of_find?_eq_some hc, by simpa using List.find?_some hc⟩

/-- Witness for C6: staff `userC`, not the author, deletes `post1`. -/
theorem C6_delete_permission_witness :
    PostDeleteView_run exStore 1 (Viewer.auth userC) =
      ({ exStore with posts := exStore.posts.filter (fun p => p.id != 1) },
       Outcome.redirectProfile userC.username) :=
  (C6_delete_permission exStore 1 1 userC post1 comment1
    (by decide) (by decide)).1 (Or.inr (by decide))

/-- Counterexample to C7 as stated: with eleven published posts (two pages at
page size 10), the global feed answers the out-of-range page number 0 with
page 2 — the LAST page, not the nearest valid page 1 — and the category feed
answers out-of-range page numbers (0, or 3 with only 2 pages) with `Http404`,
an error outcome, instead of any page at all. -/
theorem C7_counterexample :
    (index_view bigStore 100 (PageParam.intVal 0)).2 = 2 ∧
    (index_view bigStore 100 (PageParam.intVal 0)).2 ≠ 1 ∧
    num_pages (get_published_posts_queryset bigStore 100).length POSTS_LIMIT
      = 2 ∧
    CategoryListView_page bigStore "tech" 100 (PageParam.intVal 0) = none ∧
    CategoryListView_page bigStore "tech" 100 (PageParam.intVal 3) = none ∧
    CategoryListView_get_queryset bigStore "tech" 100 ≠ none := by decide

/-- C7 as amended: every feed context paginates with the fixed page size 10;
the global feed never errors on the page parameter — its answer is always a
valid page, a missing or non-integer parameter yields the first page, and an
out-of-range integer (below 1 as well as beyond the last page) yields the
last page; the profile and category feeds instead answer `Http404` for an
out-of-range integer page. -/
theorem C7_amended_pagination (s : Store) (now : Int) (param : PageParam)
    (n : Int) (username slug : String) (viewer : Viewer) :
    POSTS_LIMIT = 10 ∧
    (1 ≤ (index_view s now param).2 ∧
      (index_view s now param).2 ≤
        num_pages (get_published_posts_queryset s now).length POSTS_LIMIT) ∧
    ((param = PageParam.missing ∨ param = PageParam.nonInt ∨
        param = PageParam.lastLit) → (index_view s now param).2 = 1) ∧
    ((n < 1 ∨
        (num_pages (get_published_posts_queryset s now).length POSTS_LIMIT : Int)
          < n) →
      (index_view s now (PageParam.intVal n)).2 =
        num_pages (get_published_posts_queryset s now).length POSTS_LIMIT) ∧
    (∀ l, ProfileListView_get_queryset s username viewer now = some l →
      (n < 1 ∨ (num_pages l.length POSTS_LIMIT : Int) < n) →
      ProfileListView_page s username viewer now (PageParam.intVal n) = none) ∧
    (∀ l, CategoryListView_get_queryset s slug now = some l →
      (n < 1 ∨ (num_pages l.length POSTS_LIMIT : Int) < n) →
      CategoryListView_page s slug now (PageParam.intVal n) = none) := by
  have hnp : 1 ≤ num_pages (get_published_posts_queryset s now).length
      POSTS_LIMIT := le_max_left 1 _
  refine ⟨rfl, ?_, ?_, ?_, ?_, ?_⟩
  · cases param with
    | intVal m =>
      simp only [index_view, Paginator_get_page]
      split_ifs with h1 h2
      · exact ⟨hnp, Nat.le_refl _⟩
      · exact ⟨hnp, Nat.le_refl _⟩
      · exact ⟨by omega, by omega⟩
    | missing => exact ⟨Nat.le_refl 1, hnp⟩
    | lastLit => exact ⟨Nat.le_refl 1, hnp⟩
    | nonInt => exact ⟨Nat.le_refl 1, hnp⟩
  · rintro (h | h | h) <;> subst h <;> rfl
  · intro h
    simp only [index_view, Paginator_get_page]
    rcases h with h | h
    · rw [if_pos h]
    · rw [if_neg (by omega : ¬ n < 1), if_pos h]
  · intro l hl hrange
    simp only [ProfileListView_page, hl, ListView_paginate]
    rw [if_pos hrange]
  · intro l hl hrange
    simp only [CategoryListView_page, hl, ListView_paginate]
    rw [if_pos hrange]

/-- Witness for C7 as amended: in the two-page store, page number 5 on the
global feed yields the last page. -/
theorem C7_amended_pagination_witness :
    (index_view bigStore 100 (PageParam.intVal 5)).2 =
      num_pages (get_published_posts_queryset bigStore 100).length
        POSTS_LIMIT :=
  (C7_amended_pagination bigStore 100 (PageParam.intVal 5) 5 "alice" "tech"
    Viewer.anonymous).2.2.2.1 (Or.inr (by decide))

/-- Counterexample to C8 as stated: `post1` has one comment, yet the category
feed serves it with no `comment_count` at all — `CategoryListView.get_queryset`
carries no `annotate(comment_count=...)` clause. -/
theorem C8_counterexample :
    CategoryListView_get_queryset exStore "tech" 100 =
      some [{ post := post1, comment_count := none }] ∧
    commentCount exStore.comments post1 = 1 ∧
    ({ post := post1, comment_count := none } : FeedItem).comment_count ≠
      some (commentCount exStore.comments post1) := by decide

/-- C8 as amended: every post in the global feed and in any profile feed
carries `comment_count` equal to the number of its associated comments,
computed from the store at fetch time; the posts of a category feed carry no
`comment_count` annotation. -/
theorem C8_amended_comment_count (s : Store) (now : Int)
    (username slug : String) (viewer : Viewer) :
    (∀ item ∈ get_published_posts_queryset s now,
      item.comment_count = some (commentCount s.comments item.post)) ∧
    (∀ l, ProfileListView_get_queryset s username viewer now = some l →
      ∀ item ∈ l, item.comment_count = some (commentCount s.comments item.post)) ∧
    (∀ l, CategoryListView_get_queryset s slug now = some l →
      ∀ item ∈ l, item.comment_count = none) := by
  refine ⟨?_, ?_, ?_⟩
  · intro item hmem
    rw [get_published_posts_queryset, mem_sortByPubDateDesc,
      List.mem_map] at hmem
    obtain ⟨q, hq, rfl⟩ := hmem
    rfl
  · intro l hl item hmem
    rcases hfind : s.users.find? (fun v => v.username == username) with _ | user_obj
    · simp only [ProfileListView_get_queryset, hfind] at hl
      exact Option.noConfusion hl
    · simp only [ProfileListView_get_queryset, hfind, Option.some.injEq] at hl
      subst hl
      rw [mem_sortByPubDateDesc, List.mem_map] at hmem
      obtain ⟨q, hq, rfl⟩ := hmem
      rfl
  · intro l hl item hmem
    rcases hfind : s.categories.find?
        (fun c => c.slug == slug && c.is_published) with _ | category
    · simp only [CategoryListView_get_queryset, hfind] at hl
      exact Option.noConfusion hl
    · simp only [CategoryListView_get_queryset, hfind, Option.some.injEq] at hl
      subst hl
      rw [mem_sortByPubDateDesc, List.mem_map] at hmem
      obtain ⟨q, hq, rfl⟩ := hmem
      rfl

/-- Witness for C8 as amended: the global feed serves `post1` with
`comment_count` equal to its one comment. -/
theorem C8_amended_comment_count_witness :
    ({ post := post1, comment_count := some 1 } : FeedItem).comment_count =
      some (commentCount exStore.comments post1) :=
  (C8_amended_comment_count exStore 100 "alice" "tech" Viewer.anonymous).1
    { post := post1, comment_count := some 1 } (by decide)

/-- Counterexample to C9 as stated: staff `userC` successfully deletes
`post1`, whose author is `userA`, and is redirected to their own profile
(`"carol"`), not to the author's profile (`"alice"`) —
`PostDeleteView.get_success_url` uses `request.user.username`. -/
theorem C9_counterexample :
    userC ≠ post1.author ∧ userC.is_staff = true ∧
    (PostDeleteView_run exStore 1 (Viewer.auth userC)).2 =
      Outcome.redirectProfile userC.username ∧
    (PostDeleteView_run exStore 1 (Viewer.auth userC)).2 ≠
      Outcome.redirectProfile post1.author.username := by decide

/-- C9 as amended: on success, a Comment update and a Comment delete redirect
to the parent post's detail page, a Post update redirects to the edited
post's own detail page, and a Post delete redirects to the deleting viewer's
own profile — which coincides with the author's profile when the deleter is
the author, but is the staff viewer's profile when a staff non-author
deletes. -/
theorem C9_amended_redirects (s : Store) (post_id comment_id : Nat) (u : User)
    (f : PostFormData) (newText : String) (post : Post) (comment : Comment)
    (hp : s.posts.find? (fun p => p.id == post_id) = some post)
    (hc : s.comments.find? (fun c => c.id == comment_id) = some comment) :
    (u = post.author →
      (PostUpdateView_run s post_id (Viewer.auth u) f).2 =
        Outcome.redirectPostDetail post.id) ∧
    ((u = post.author ∨ u.is_staff = true) →
      (PostDeleteView_run s post_id (Viewer.auth u)).2 =
        Outcome.redirectProfile u.username) ∧
    (u = comment.author →
      (CommentUpdateView_run s comment_id (Viewer.auth u) newText).2 =
        Outcome.redirectPostDetail comment.post_id) ∧
    (u = comment.author →
      (CommentDeleteView_run s comment_id (Viewer.auth u)).2 =
        Outcome.redirectPostDetail comment.post_id) := by
  refine ⟨?_, ?_, ?_, ?_⟩
  · intro h
    subst h
    simp [PostUpdateView_run, hp]
  · rintro (h | h)
    · subst h
      simp [PostDeleteView_run, hp]
    · simp [PostDeleteView_run, hp, Viewer.isStaff, h]
  · intro h
    simp [CommentUpdateView_run, hc, h]
  · intro h
    subst h
    simp [CommentDeleteView_run, hc]

/-- Witness for C9 as amended: the staff deleter of `post1` lands on their own
profile. -/
theorem C9_amended_redirects_witness :
    (PostDeleteView_run exStore 1 (Viewer.auth userC)).2 =
      Outcome.redirectProfile userC.username :=
  (C9_amended_redirects exStore 1 1 userC formData "z" post1 comment1
    (by decide) (by decide)).2.1 (Or.inr (by decide))

/-- C10: comment creation checks only that the parent post exists. For any
authenticated viewer, whenever a post with the given id is in the store —
its publication flags and timestamp are unconstrained here, so unpublished,
future-dated or hidden-category posts included — the comment is stored and
the caller is redirected to the post's detail page; `Http404` happens exactly
when no post carries the id. -/
theorem C10_comment_create (s : Store) (post_id : Nat) (draft : Comment)
    (u : User) :
    (∀ post, s.posts.find? (fun p => p.id == post_id) = some post →
      CommentCreateView_run s post_id draft (Viewer.auth u) =
        ({ s with comments :=
            s.comments ++ [{ draft with author := u, post_id := post.id }] },
         Outcome.redirectPostDetail post_id)) ∧
    ((∀ p ∈ s.posts, p.id ≠ post_id) →
      CommentCreateView_run s post_id draft (Viewer.auth u) =
        (s, Outcome.notFound)) := by
  constructor
  · intro post hfind
    simp [CommentCreateView_run, hfind]
  · intro h
    have hfind : s.posts.find? (fun p => p.id == post_id) = none := by
      rw [List.find?_eq_none]
      intro p hpmem
      simpa using h p hpmem
    simp [CommentCreateView_run, hfind]

/-- Witness for C10: `userB` comments on `post2`, which is unpublished and
hence invisible to them, and the comment is stored. -/
theorem C10_comment_create_witness :
    CommentCreateView_run exStore 2 draftComment (Viewer.auth userB) =
      ({ exStore with comments := exStore.comments ++
          [{ draftComment with author := userB, post_id := post2.id }] },
       Outcome.redirectPostDetail 2) :=
  (C10_comment_create exStore 2 draftComment userB).1 post2 (by decide)

end Blogicum
